import Mathlib

/-!
Verification of the Teams/Chat Card Composer and Delivery subsystem of the
ptmind-card-pusher repository (src/teams_tool.py), as a shallow embedding.

Python values that flow through the validator are modelled by `PyValue`;
JSON-like dictionaries built by `TeamsNotification._build_payload` are
modelled by the `J` tree (dictionary key order is preserved as list order,
matching Python insertion-order dictionaries); Python strings are Lean
`String`s; truthiness of a string is non-emptiness.
-/

/-- JSON-like value: the shape of the Python dict/list/str/bool payloads
built by `_build_payload`.  An object is an ordered association list,
mirroring Python dict insertion order. -/
inductive J where
  | str (s : String)
  | bool (b : Bool)
  | arr (xs : List J)
  | obj (fields : List (String × J))

/-- Field lookup in an object (Python `d["k"]` / `d.get("k")`). -/
def J.get (j : J) (k : String) : Option J :=
  match j with
  | J.obj fields => fields.lookup k
  | _ => Option.none

/-- Index lookup in an array (Python `l[i]`). -/
def J.idx (j : J) (n : Nat) : Option J :=
  match j with
  | J.arr xs => xs.get? n
  | _ => Option.none

/-- A Python value as seen by `validate_and_convert_to_string`.  The
`obj` constructor models an arbitrary Python object: it carries the
object's `repr` text and the result of calling `str` on it (`Except.error`
models `str` raising, with the exception's message). -/
inductive PyValue where
  | none
  | bool (b : Bool)
  | int (n : Int)
  | str (s : String)
  | list (xs : List PyValue)
  | obj (reprS : String) (strE : Except String String)

mutual

/-- Python `repr` of a value (string escaping inside `repr` of a `str`
is not modelled; quotes are). -/
def pyRepr : PyValue → String
  | PyValue.none => "None"
  | PyValue.bool b => if b then "True" else "False"
  | PyValue.int n => toString n
  | PyValue.str s => "\x27" ++ s ++ "\x27"
  | PyValue.list xs => "[" ++ String.intercalate ", " (pyReprList xs) ++ "]"
  | PyValue.obj r _ => r

/-- `repr` of each element of a Python list. -/
def pyReprList : List PyValue → List String
  | [] => []
  | x :: xs => pyRepr x :: pyReprList xs

end

/-- Python `str(value)`: returns the rendering, or the raised exception's
message when `str` raises (only possible for an arbitrary object). -/
def pyStrE : PyValue → Except String String
  | PyValue.none => Except.ok "None"
  | PyValue.bool b => Except.ok (if b then "True" else "False")
  | PyValue.int n => Except.ok (toString n)
  | PyValue.str s => Except.ok s
  | PyValue.list xs => Except.ok (pyRepr (PyValue.list xs))
  | PyValue.obj _ r => r

/-- Python truthiness (`bool(value)`); an arbitrary object is truthy by
default. -/
def pyTruthy : PyValue → Bool
  | PyValue.none => false
  | PyValue.bool b => b
  | PyValue.int n => n != 0
  | PyValue.str s => s != ""
  | PyValue.list xs => !xs.isEmpty
  | PyValue.obj _ _ => true

/-- `isinstance(value, (int, float, bool))` (floats are modelled by `int`:
only the branch taken matters to the claims, not float formatting). -/
def isNumBool : PyValue → Bool
  | PyValue.bool _ => true
  | PyValue.int _ => true
  | _ => false

/-- Embedding of `validate_and_convert_to_string` (teams_tool.py lines
34-50): `None` maps to the empty string; numeric/boolean values go
through `str`; other falsy values map to the empty string; anything else
goes through `str`, and a raise inside the `try` block becomes the
`ValueError` with the message of line 50. -/
def validate_and_convert_to_string (value : PyValue) (fieldName : String) :
    Except String String :=
  match value with
  | PyValue.none => Except.ok ""
  | v =>
    let res : Except String String :=
      if isNumBool v then pyStrE v
      else if pyTruthy v = false then Except.ok ""
      else pyStrE v
    match res with
    | Except.ok s => Except.ok s
    | Except.error e =>
        Except.error ("Tool input field \x27" ++ fieldName ++
          "\x27 must be convertible to a string. Value: " ++ pyRepr v ++
          ". Error: " ++ e)

/-! ## Delivery client (`TeamsNotification._send_with_retry`, lines 249-290) -/

/-- `TeamsConfig` (lines 16-21).  `webhook_url` comes from the environment
(`os.getenv`, possibly unset), the numeric defaults are the dataclass
defaults. -/
structure TeamsConfig where
  webhook_url : Option String := Option.none
  timeout : Nat := 30
  max_retries : Nat := 3
  retry_delay : Nat := 10
  deriving DecidableEq

/-- The two-field dict `{"status": ..., "detail": ...}` returned by
`_send_with_retry` and `send_notification`. -/
structure Outcome where
  status : String
  detail : String
  deriving DecidableEq

/-- What one `requests.post` call yields: an HTTP response (status code and
body text), a `Timeout`, or another `RequestException` carrying its
message. -/
inductive AttemptResult where
  | response (status : Nat) (body : String)
  | timeout
  | reqError (msg : String)
  deriving DecidableEq

/-- Python `s[:n]` (used as `response.text[:200]` in the failure detail). -/
def pyTake (n : Nat) (s : String) : String :=
  String.mk (s.data.take n)

/-- Message of the `requests.exceptions.HTTPError` raised by
`response.raise_for_status()` for a 4xx/5xx status.  The library message
names the status code; the reason phrase and URL it also carries are
abstracted away. -/
def httpErrorMsg (status : Nat) : String :=
  toString status ++ (if 500 ≤ status then " Server Error" else " Client Error")

/-- How one loop iteration of `_send_with_retry` treats the attempt's
result: `done o` models an immediate `return o`; `retryable o` models a
caught `Timeout`/`RequestException`, where `o` is the Failure outcome that
is returned if this was the last allowed attempt (lines 275-282). -/
inductive StepResult where
  | done (o : Outcome)
  | retryable (o : Outcome)
  deriving DecidableEq

/-- The outcome carried by a step, whichever constructor holds it. -/
def stepOutcome : StepResult → Outcome
  | StepResult.done o => o
  | StepResult.retryable o => o

/-- One iteration of the retry loop (lines 252-282).
`raise_for_status()` raises `HTTPError` exactly for 4xx/5xx statuses, which
is then caught by the `except RequestException` arm; a 200 with body `"1"`
is the plain Success; a 200 with any other body is Success with a caveat;
any other non-error status falls into the fallback `else` and returns a
Failure immediately. -/
def attemptStep : AttemptResult → StepResult
  | AttemptResult.timeout =>
      StepResult.retryable
        { status := "Failure", detail := "Request timed out after multiple retries." }
  | AttemptResult.reqError msg =>
      StepResult.retryable
        { status := "Failure", detail := "Request failed after multiple retries: " ++ msg }
  | AttemptResult.response status body =>
      if 400 ≤ status then
        StepResult.retryable
          { status := "Failure",
            detail := "Request failed after multiple retries: " ++ httpErrorMsg status }
      else if status = 200 ∧ body = "1" then
        StepResult.done { status := "Success", detail := "Notification sent successfully." }
      else if status = 200 then
        StepResult.done
          { status := "Success",
            detail := "Notification sent, but response was not \x271\x27 (Status: " ++
              toString status ++ ")." }
      else
        StepResult.done
          { status := "Failure",
            detail := "Sending failed with status: " ++ toString status ++
              ", Response: " ++ pyTake 200 body }

/-- The `for attempt in range(max_retries)` loop of `_send_with_retry`.
`env i` is what the i-th POST yields; `remaining` is the number of loop
iterations left (`max_retries - attempt`), so `remaining = 1` means this is
the last allowed attempt.  Returns the outcome together with the number of
POST attempts actually made.  The `remaining = 0` case is the fallback
`return` after the loop (line 290).  The inter-attempt `time.sleep` has no
observable effect in this model. -/
def sendWithRetryGo (env : Nat → AttemptResult) : Nat → Nat → Outcome × Nat
  | attempt, 0 =>
      ({ status := "Failure", detail := "Reached max retries without success." }, attempt)
  | attempt, remaining + 1 =>
      match attemptStep (env attempt) with
      | StepResult.done o => (o, attempt + 1)
      | StepResult.retryable o =>
          if remaining = 0 then (o, attempt + 1)
          else sendWithRetryGo env (attempt + 1) remaining

/-- `_send_with_retry`, abstracted over what each POST attempt yields. -/
def sendWithRetry (env : Nat → AttemptResult) (maxRetries : Nat) : Outcome × Nat :=
  sendWithRetryGo env 0 maxRetries

/-! ## Card composer (`TeamsNotification._build_payload`, lines 66-247)

`card_data` as built by `TeamsNotificationTool.forward` is a nested dict of
string fields; `CardData` flattens that nesting into one structure.  A
missing-or-empty entry is the empty string (both are falsy in every branch
of `_build_payload`).  The two entries read with an explicit `.get`
default (`image.user.url` and `source_url`) are `Option String`, `none`
modelling an absent key. -/

structure CardData where
  user_name : String := ""
  user_phone : String := ""
  user_email : String := ""
  user_position : String := ""
  user_other_position : String := ""
  user_note : String := ""
  user_tags : String := ""
  user_perspective : String := ""
  company_name : String := ""
  company_website : String := ""
  webpage_info : String := ""
  webpage_tags : String := ""
  company_info : String := ""
  employee_range : String := ""
  company_industry : String := ""
  company_tags : String := ""
  technology_name : String := ""
  pte_tags : String := ""
  similar_customers : String := ""
  form_message : String := ""
  lead_rating : String := ""
  last_month_pv : String := ""
  estimated_mrr : String := ""
  positive_factors : String := ""
  negative_factors : String := ""
  image_company_name : String := ""
  image_company_url : String := ""
  image_user_url : Option String := Option.none
  mention_name : String := ""
  mention_email : String := ""
  source_url : Option String := Option.none

/-- The repeated plain `{"type": "TextBlock", "text": ..., "wrap": True}`
literal. -/
def textBlock (t : String) : J :=
  J.obj [("type", J.str "TextBlock"), ("text", J.str t), ("wrap", J.bool true)]

/-- The repeated bold label `TextBlock` literal
(`{"type": "TextBlock", "text": label, "weight": "Bolder",
"size": "Medium", "wrap": True}`). -/
def labelTextBlock (label : String) : J :=
  J.obj [("type", J.str "TextBlock"), ("text", J.str label), ("weight", J.str "Bolder"),
    ("size", J.str "Medium"), ("wrap", J.bool true)]

/-- The repeated two-column `ColumnSet` literal: a fixed-width bold label
column and a stretch column of value items. -/
def labelRow (width label : String) (valueItems : List J) : J :=
  J.obj [("type", J.str "ColumnSet"), ("columns", J.arr
    [J.obj [("type", J.str "Column"), ("width", J.str width),
       ("items", J.arr [labelTextBlock label])],
     J.obj [("type", J.str "Column"), ("width", J.str "stretch"),
       ("items", J.arr valueItems)]])]

/-- The static header `TextBlock` (lines 79-85), the one body element of
the base payload. -/
def headerBlock : J :=
  J.obj [("type", J.str "TextBlock"), ("size", J.str "Large"), ("weight", J.str "Bolder"),
    ("text", J.str "New Lead - User Sign up (via Research Agent)"), ("isSubtle", J.bool true)]

/-- Company name/logo section (lines 108-124). -/
def companySection (c : CardData) : List J :=
  if ¬ c.company_name = "" ∨ ¬ c.image_company_url = "" then
    [J.obj [("type", J.str "ColumnSet"),
       ("columns", J.arr (
         (if ¬ c.company_name = "" then
           [J.obj [("type", J.str "Column"), ("width", J.str "stretch"),
              ("items", J.arr [J.obj [("type", J.str "TextBlock"),
                ("text", J.str c.company_name), ("wrap", J.bool true),
                ("size", J.str "ExtraLarge")]]),
              ("horizontalAlignment", J.str "Left"),
              ("verticalContentAlignment", J.str "Center")]]
          else []) ++
         (if ¬ c.image_company_url = "" then
           [J.obj [("type", J.str "Column"), ("width", J.str "stretch"),
              ("items", J.arr [J.obj [("type", J.str "Image"),
                ("url", J.str c.image_company_url), ("height", J.str "100px"),
                ("horizontalAlignment", J.str "Right"),
                ("altText", J.str (c.image_company_name ++ "_logo"))]])]]
          else []))),
       ("style", J.str "emphasis")]]
  else []

/-- Items of the phone/email contact container (lines 137-143). -/
def userContactItems (c : CardData) : List J :=
  (if ¬ c.user_phone = "" then [labelRow "50px" "電話" [textBlock c.user_phone]] else []) ++
  (if ¬ c.user_email = "" then [labelRow "50px" "メール" [textBlock c.user_email]] else [])

/-- User info section (lines 126-147).  The in-place append of the contact
container into the second column of the row just added (line 147) is
rendered functionally: the second column's items carry the container
exactly when the contact list is non-empty. -/
def userSection (c : CardData) : List J :=
  if ¬ c.user_name = "" then
    [J.obj [("type", J.str "ColumnSet"),
       ("columns", J.arr [
         J.obj [("type", J.str "Column"),
           ("items", J.arr [J.obj [("type", J.str "Image"),
             ("url", J.str (c.image_user_url.getD "https://i.imgur.com/Nho5TnJb.jpg")),
             ("altText", J.str c.user_name), ("spacing", J.str "None"),
             ("horizontalAlignment", J.str "Left"), ("size", J.str "Medium"),
             ("style", J.str "Person"), ("width", J.str "80px")]]),
           ("width", J.str "80px"), ("verticalContentAlignment", J.str "Top")],
         J.obj [("type", J.str "Column"),
           ("items", J.arr ([J.obj [("type", J.str "TextBlock"), ("weight", J.str "Bolder"),
              ("size", J.str "Large"), ("text", J.str c.user_name), ("wrap", J.bool true)]] ++
             (if (userContactItems c).isEmpty then [] else
               [J.obj [("type", J.str "Container"), ("items", J.arr (userContactItems c))]]))),
           ("width", J.str "stretch")]]),
       ("separator", J.bool true)]]
  else []

/-- Items of the user additional-info container (lines 149-165). -/
def userAdditionalItems (c : CardData) : List J :=
  (if ¬ c.user_position = "" then
    [labelRow "80px" "職位情報" ([textBlock c.user_position] ++
      (if ¬ c.user_other_position = "" then [textBlock c.user_other_position] else []))]
   else []) ++
  (if ¬ c.user_note = "" then
    [labelRow "80px" "備考情報" ([textBlock c.user_note] ++
      (if ¬ c.user_tags = "" then [textBlock c.user_tags] else []))]
   else []) ++
  (if ¬ c.user_perspective = "" then
    [labelRow "80px" "個人観点" [textBlock c.user_perspective]] else [])

/-- User additional-info section (appended iff it has items, line 166). -/
def userAdditionalSection (c : CardData) : List J :=
  if (userAdditionalItems c).isEmpty then [] else
    [J.obj [("type", J.str "Container"), ("items", J.arr (userAdditionalItems c))]]

/-- Items of the company details container (lines 169-198).
`industry_tags` is `" ".join(filter(None, [industry, tags]))` (line 184). -/
def companyDetailsItems (c : CardData) : List J :=
  (if ¬ c.company_website = "" then
    [labelRow "80px" "サイト"
      ([textBlock ("[" ++ c.company_website ++ "](" ++ c.company_website ++ ")")] ++
       (if ¬ c.webpage_info = "" then [textBlock c.webpage_info] else []) ++
       (if ¬ c.webpage_tags = "" then [textBlock c.webpage_tags] else []))]
   else []) ++
  (if ¬ c.company_info = "" then
    [labelRow "80px" "会社情報"
      ([textBlock c.company_info] ++
       (if ¬ c.employee_range = "" then [textBlock ("社員規模：" ++ c.employee_range)] else []) ++
       (let industryTags :=
          String.intercalate " " (List.filter (fun s => s ≠ "") [c.company_industry, c.company_tags])
        if ¬ industryTags = "" then [textBlock industryTags] else []) ++
       (if ¬ c.technology_name = "" then
         [textBlock ("会社サイト採用技術: " ++ c.technology_name)] else []))]
   else []) ++
  (if ¬ c.pte_tags = "" then [labelRow "80px" "競合事例" [textBlock c.pte_tags]] else []) ++
  (if ¬ c.similar_customers = "" then
    [labelRow "80px" "類似顧客" [textBlock c.similar_customers]] else []) ++
  (if ¬ c.form_message = "" then [labelRow "80px" "問合せ" [textBlock c.form_message]] else [])

/-- Company details section (appended iff it has items, line 199). -/
def companyDetailsSection (c : CardData) : List J :=
  if (companyDetailsItems c).isEmpty then [] else
    [J.obj [("type", J.str "Container"), ("items", J.arr (companyDetailsItems c))]]

/-- `evaluation_data["lead_rating"].count("★")` (line 207). -/
def starCount (s : String) : Nat :=
  s.data.count '★'

/-- Items of the lead evaluation container (lines 202-225). -/
def evaluationItems (c : CardData) : List J :=
  (if ¬ c.lead_rating = "" then [labelRow "80px" "リード評価" [textBlock c.lead_rating]] else []) ++
  (if ¬ c.last_month_pv = "" ∧ ¬ c.company_website = "" then
    [labelRow "80px" "先月PV"
      [textBlock (c.last_month_pv ++ " ([" ++ c.company_website ++ "](" ++
        c.company_website ++ "))")]]
   else if ¬ c.last_month_pv = "" then [labelRow "80px" "先月PV" [textBlock c.last_month_pv]]
   else []) ++
  (if ¬ c.estimated_mrr = "" then [labelRow "80px" "推定MRR" [textBlock c.estimated_mrr]] else []) ++
  (if ¬ c.positive_factors = "" then
    [labelRow "80px" "加点要素" [textBlock c.positive_factors]] else []) ++
  (if ¬ c.negative_factors = "" then
    [labelRow "80px" "減点要素" [textBlock c.negative_factors]] else [])

/-- The `"style": "warning"` entry added to the evaluation container when
the rating is present and has four or more stars (lines 206-209); Python
appends the new key after the existing `type`, `items`, `bleed` keys. -/
def evaluationStyleFields (c : CardData) : List (String × J) :=
  if ¬ c.lead_rating = "" ∧ 4 ≤ starCount c.lead_rating then [("style", J.str "warning")] else []

/-- Lead evaluation section (appended iff it has items, line 226). -/
def evaluationSection (c : CardData) : List J :=
  if (evaluationItems c).isEmpty then [] else
    [J.obj ([("type", J.str "Container"), ("items", J.arr (evaluationItems c)),
      ("bleed", J.bool true)] ++ evaluationStyleFields c)]

/-- Python `str.title()` on its simple word model (ASCII letters): the
first letter of each run of letters is uppercased, the rest lowercased;
the accumulator records whether the previous character was a letter. -/
def pyTitleAux : Bool → List Char → List Char
  | _, [] => []
  | prevAlpha, ch :: rest =>
      if ch.isAlpha then
        (if prevAlpha then ch.toLower else ch.toUpper) :: pyTitleAux true rest
      else ch :: pyTitleAux false rest

/-- Python `str.title()`. -/
def pyTitle (l : List Char) : List Char :=
  pyTitleAux false l

/-- Line 235: `mention_email.split('@')[0].replace('.', ' ')
.replace('_', ' ').title()`. -/
def deriveMentionName (email : String) : String :=
  String.mk (pyTitle (((email.data.takeWhile (fun ch => ch != '@')).map
    (fun ch => if ch = '.' then ' ' else ch)).map
    (fun ch => if ch = '_' then ' ' else ch)))

/-- Lines 233-235: the explicit display name if non-empty, else the name
derived from the email. -/
def resolveMentionName (c : CardData) : String :=
  if c.mention_name = "" then deriveMentionName c.mention_email else c.mention_name

/-- The mention `TextBlock` appended to the body (lines 237, 243). -/
def mentionBody (c : CardData) : List J :=
  if c.mention_email = "" then [] else
    [textBlock ("<at>" ++ resolveMentionName c ++ "</at>")]

/-- The mention entity appended to `msteams.entities` (lines 238-244). -/
def mentionEntities (c : CardData) : List J :=
  if c.mention_email = "" then [] else
    [J.obj [("type", J.str "mention"),
       ("text", J.str ("<at>" ++ resolveMentionName c ++ "</at>")),
       ("mentioned", J.obj [("id", J.str c.mention_email),
         ("name", J.str (resolveMentionName c))])]]

/-- The body list of the adaptive card: the static header followed by the
conditional sections in the order the code appends them. -/
def buildBody (c : CardData) : List J :=
  (headerBlock :: (companySection c ++ userSection c ++ userAdditionalSection c ++
    companyDetailsSection c ++ evaluationSection c)) ++ mentionBody c

/-- The full payload envelope of `_build_payload` (lines 71-104) with the
dynamic body and entities in place. -/
def buildPayload (c : CardData) : J :=
  J.obj [("type", J.str "message"),
    ("attachments", J.arr [J.obj [
      ("contentType", J.str "application/vnd.microsoft.card.adaptive"),
      ("content", J.obj [
        ("type", J.str "AdaptiveCard"),
        ("body", J.arr (buildBody c)),
        ("actions", J.arr [J.obj [("type", J.str "Action.OpenUrl"),
          ("title", J.str "Source Info (if available)"),
          ("url", J.str (c.source_url.getD "https://app.kocoro.ai/"))]]),
        ("$schema", J.str "http://adaptivecards.io/schemas/adaptive-card.json"),
        ("version", J.str "1.2"),
        ("msteams", J.obj [("width", J.str "Full"),
          ("entities", J.arr (mentionEntities c))])])]])]

/-! ## Tool entry point (`TeamsNotificationTool.forward`, lines 346-434)

All 30 tool inputs are strings with default `""`;
`validate_and_convert_to_string` is the identity on strings (proved below),
so the validated `data` dict is modelled by `ForwardData` directly. -/

structure ForwardData where
  LeadCompanyName : String := ""
  CompanyInfo_Short : String := ""
  userEmail : String := ""
  userName : String := ""
  UserInfo_Short : String := ""
  UserTitle_ThisCompany : String := ""
  PersonalOpinionPreference : String := ""
  Top5Cases_Name : String := ""
  account_phone : String := ""
  Image_URL_companyLogo : String := ""
  LeadScoreLevel : String := ""
  ReasonforPrioritization : String := ""
  ReasonforDeprioritization : String := ""
  LastMonthPV : String := ""
  potential_mrr : String := ""
  refinedURL : String := ""
  technology_name : String := ""
  formMessage : String := ""
  UserTitle_OtherCompany : String := ""
  CompanyIndustry : String := ""
  employee_range : String := ""
  UserTags : String := ""
  CompanyTags : String := ""
  WebPageTags : String := ""
  WebPageInfo_Short : String := ""
  PTECompetitorCaseStudyTags : String := ""
  Image_URL_userPhoto : String := ""
  mention_name : String := ""
  mention_email : String := ""
  source_url : String := ""

/-- Python `s.replace(" ", "")`: drop every space character. -/
def pyRemoveSpaces (s : String) : String :=
  String.mk (s.data.filter (fun ch => ch != ' '))

/-- Python `a or b` on strings: `b` when `a` is empty. -/
def pyOr (a b : String) : String :=
  if a = "" then b else a

/-- Lines 396-399: after validation, spaces are stripped from the three
URL fields; every other field is untouched. -/
def cleanupURLs (d : ForwardData) : ForwardData :=
  { d with
    Image_URL_companyLogo := pyRemoveSpaces d.Image_URL_companyLogo,
    refinedURL := pyRemoveSpaces d.refinedURL,
    Image_URL_userPhoto := pyRemoveSpaces d.Image_URL_userPhoto }

/-- The `custom_data` dict built at lines 406-434 from the validated and
cleaned data, flattened into `CardData`.  `image.user.url` gets the imgur
placeholder when the photo URL is empty (`or`, line 428); the `mention`
sub-dict is empty unless `mention_email` is non-empty (line 431). -/
def toCustomData (d : ForwardData) : CardData :=
  { user_name := d.userName,
    user_phone := d.account_phone,
    user_email := d.userEmail,
    user_position := d.UserTitle_ThisCompany,
    user_note := d.UserInfo_Short,
    user_perspective := d.PersonalOpinionPreference,
    user_other_position := d.UserTitle_OtherCompany,
    user_tags := d.UserTags,
    lead_rating := d.LeadScoreLevel,
    estimated_mrr := d.potential_mrr,
    last_month_pv := d.LastMonthPV,
    positive_factors := d.ReasonforPrioritization,
    negative_factors := d.ReasonforDeprioritization,
    company_name := d.LeadCompanyName,
    company_website := d.refinedURL,
    company_info := d.CompanyInfo_Short,
    technology_name := d.technology_name,
    form_message := d.formMessage,
    similar_customers := d.Top5Cases_Name,
    company_industry := d.CompanyIndustry,
    employee_range := d.employee_range,
    company_tags := d.CompanyTags,
    webpage_tags := d.WebPageTags,
    webpage_info := d.WebPageInfo_Short,
    pte_tags := d.PTECompetitorCaseStudyTags,
    image_company_name := d.LeadCompanyName,
    image_company_url := d.Image_URL_companyLogo,
    image_user_url := Option.some (pyOr d.Image_URL_userPhoto "https://i.imgur.com/Nho5TnJb.jpg"),
    mention_name := if d.mention_email = "" then "" else d.mention_name,
    mention_email := if d.mention_email = "" then "" else d.mention_email,
    source_url := Option.some d.source_url }

/-- The composer input produced by `forward` for given tool inputs:
validation (identity on strings), URL cleanup, then `custom_data`. -/
def forwardCardData (d : ForwardData) : CardData :=
  toCustomData (cleanupURLs d)

/-- The tool call with every one of the ~30 optional inputs left empty. -/
def emptyForward : ForwardData := {}

/-! ## Extraction helpers for stating the claims -/

/-- The text of the first item of the first column of a
two-column row: the row's label. -/
def rowLabelOf (j : J) : Option J :=
  ((((j.get "columns").bind (fun x => x.idx 0)).bind (fun x => x.get "items")).bind
    (fun x => x.idx 0)).bind (fun x => x.get "text")

/-- The text of the first item of the second column of a
two-column row: the row's rendered value. -/
def rowValueTextOf (j : J) : Option J :=
  ((((j.get "columns").bind (fun x => x.idx 1)).bind (fun x => x.get "items")).bind
    (fun x => x.idx 0)).bind (fun x => x.get "text")

/-- The first row of a list whose label text is the given string. -/
def findRowWithLabel (label : String) : List J → Option J
  | [] => Option.none
  | r :: rest =>
      match rowLabelOf r with
      | Option.some (J.str s) => if s = label then Option.some r else findRowWithLabel label rest
      | _ => findRowWithLabel label rest

/-- The rendered value text of the page-view row of the evaluation
section. -/
def pvRowText (c : CardData) : Option J :=
  (findRowWithLabel "先月PV" (evaluationItems c)).bind rowValueTextOf

/-- The `style` entry of the evaluation container, if any. -/
def evaluationStyle (c : CardData) : Option J :=
  (evaluationSection c).head?.bind (fun j => j.get "style")

/-- The image URL of the first column of the user identity row. -/
def userRowImageUrl (c : CardData) : Option J :=
  (((((userSection c).head?.bind (fun j => j.get "columns")).bind (fun j => j.idx 0)).bind
    (fun j => j.get "items")).bind (fun j => j.idx 0)).bind (fun j => j.get "url")

/-- The text of the last body element (the mention `TextBlock`, when a
mention is present). -/
def bodyMentionText (c : CardData) : Option J :=
  ((buildBody c).getLast?).bind (fun j => j.get "text")

/-- The `mentioned.name` field of the first mention entity. -/
def entityNameOf (c : CardData) : Option J :=
  (((mentionEntities c).head?).bind (fun j => j.get "mentioned")).bind (fun j => j.get "name")

/-- The `text` field of the first mention entity. -/
def entityTextOf (c : CardData) : Option J :=
  ((mentionEntities c).head?).bind (fun j => j.get "text")

/-! ## Spec-modelled definitions (for refinement comparisons only) -/

/-- Modelled from the spec: the display-name derivation rule in the
spec's own words — "taking the portion before the first `@`, replacing
`.` and `_` with spaces, and title-casing each word" — as one pass. -/
def specDeriveMentionName (email : String) : String :=
  String.mk (pyTitle ((email.data.takeWhile (fun ch => ch != '@')).map
    (fun ch => if ch = '.' ∨ ch = '_' then ' ' else ch)))

/-- Modelled from the spec (as amended): `None` to the empty string,
booleans to their word form, numbers to their decimal form, falsy
non-numeric values to the empty string, any other value via its default
string representation, and a `str` failure reported as an error naming the
offending field. -/
def specStringify (v : PyValue) (fieldName : String) : Except String String :=
  match v with
  | PyValue.none => Except.ok ""
  | PyValue.bool b => Except.ok (if b then "True" else "False")
  | PyValue.int n => Except.ok (toString n)
  | v =>
      if pyTruthy v = false then Except.ok ""
      else
        match pyStrE v with
        | Except.ok s => Except.ok s
        | Except.error e =>
            Except.error ("Tool input field \x27" ++ fieldName ++
              "\x27 must be convertible to a string. Value: " ++ pyRepr v ++
              ". Error: " ++ e)

/-! ## Concrete inputs used by witnesses and counterexamples -/

def wCard2 : CardData := { mention_email := "jane@example.com" }

def wCard3 : CardData := { mention_email := "jane.doe_smith@example.com" }

def wCard4 : CardData := { lead_rating := "★★★★☆" }

def xCard7 : CardData := { last_month_pv := "1234", company_website := "https://x.com" }

def wCard7 : CardData := { last_month_pv := "999" }

def wFd10 : ForwardData := { userName := "Alice" }

/-! ## Supporting lemmas -/

/-- `validate_and_convert_to_string` is the identity on string inputs, so
modelling the validated `data` dict of `forward` by the string inputs
themselves is faithful. -/
theorem validate_id_on_strings (s f : String) :
    validate_and_convert_to_string (PyValue.str s) f = Except.ok s := by
  by_cases hs : s = ""
  · subst hs; rfl
  · simp [validate_and_convert_to_string, isNumBool, pyTruthy, pyStrE, hs]

/-- No character of a space-stripped string is a space. -/
theorem pyRemoveSpaces_no_space (s : String) :
    ∀ ch ∈ (pyRemoveSpaces s).data, ¬ ch = ' ' := by
  intro ch hch
  have h2 := (List.mem_filter.mp hch).2
  simpa using h2

/-- The label of a label/value row is its label argument. -/
theorem rowLabelOf_labelRow (w lab : String) (items : List J) :
    rowLabelOf (labelRow w lab items) = Option.some (J.str lab) := rfl

/-! ## Claims -/

/-- Claim C1: for the lead record with all ~30 optional fields empty, the
composed document's body is exactly the static header block and nothing
else. -/
theorem claim1_empty_record_body_is_header_only :
    buildBody (forwardCardData emptyForward) = [headerBlock] := rfl

/-- Claim C2: whenever a mention email is supplied, the name rendered in
the mention text block and the `mentioned.name` field of the entity record
are textually identical (both are the resolved name), and the entity's
`text` equals the body's mention text. -/
theorem claim2_mention_text_matches_entity_name (c : CardData)
    (h : ¬ c.mention_email = "") :
    bodyMentionText c = Option.some (J.str ("<at>" ++ resolveMentionName c ++ "</at>")) ∧
    entityNameOf c = Option.some (J.str (resolveMentionName c)) ∧
    entityTextOf c = bodyMentionText c := by
  have hm : mentionBody c = [textBlock ("<at>" ++ resolveMentionName c ++ "</at>")] := by
    simp [mentionBody, h]
  have hb : (buildBody c).getLast? =
      Option.some (textBlock ("<at>" ++ resolveMentionName c ++ "</at>")) := by
    rw [buildBody, hm, List.getLast?_concat]
  have he : mentionEntities c =
      [J.obj [("type", J.str "mention"),
        ("text", J.str ("<at>" ++ resolveMentionName c ++ "</at>")),
        ("mentioned", J.obj [("id", J.str c.mention_email),
          ("name", J.str (resolveMentionName c))])]] := by
    simp [mentionEntities, h]
  refine ⟨?_, ?_, ?_⟩
  · rw [bodyMentionText, hb]; rfl
  · rw [entityNameOf, he]; rfl
  · rw [entityTextOf, he, bodyMentionText, hb]; rfl

theorem claim2_witness :
    (¬ wCard2.mention_email = "") ∧
    (bodyMentionText wCard2 =
        Option.some (J.str ("<at>" ++ resolveMentionName wCard2 ++ "</at>")) ∧
      entityNameOf wCard2 = Option.some (J.str (resolveMentionName wCard2)) ∧
      entityTextOf wCard2 = bodyMentionText wCard2) :=
  ⟨by decide, claim2_mention_text_matches_entity_name wCard2 (by decide)⟩

/-- Helper for claim C3: the two sequential single-character replacements
of the code equal the spec's single joint replacement. -/
theorem derive_eq_specDerive (email : String) :
    deriveMentionName email = specDeriveMentionName email := by
  unfold deriveMentionName specDeriveMentionName
  rw [List.map_map]
  have hfg : ((fun ch => if ch = '_' then ' ' else ch) ∘
      (fun ch => if ch = '.' then ' ' else ch)) =
      (fun ch => if ch = '.' ∨ ch = '_' then ' ' else ch) := by
    funext ch
    by_cases h1 : ch = '.'
    · subst h1; decide
    · by_cases h2 : ch = '_'
      · subst h2; decide
      · simp [h1, h2]
  rw [hfg]

/-- Claim C3: when no explicit display name is supplied, the resolved
mention name is the part of the email before the first `@` with `.` and
`_` turned into spaces and each word title-cased; in particular
`jane.doe_smith@example.com` gives "Jane Doe Smith". -/
theorem claim3_mention_name_derivation (c : CardData) (h : c.mention_name = "") :
    resolveMentionName c = specDeriveMentionName c.mention_email ∧
    deriveMentionName "jane.doe_smith@example.com" = "Jane Doe Smith" := by
  constructor
  · rw [resolveMentionName, if_pos h]
    exact derive_eq_specDerive c.mention_email
  · rfl

theorem claim3_witness :
    wCard3.mention_name = "" ∧
    (resolveMentionName wCard3 = specDeriveMentionName wCard3.mention_email ∧
      deriveMentionName "jane.doe_smith@example.com" = "Jane Doe Smith") :=
  ⟨rfl, claim3_mention_name_derivation wCard3 rfl⟩

/-- Claim C4: with a non-empty lead rating, the evaluation container
carries the "warning" style iff the rating contains at least four star
glyphs. -/
theorem claim4_warning_iff_four_stars (c : CardData) (h : ¬ c.lead_rating = "") :
    evaluationStyle c = Option.some (J.str "warning") ↔ 4 ≤ starCount c.lead_rating := by
  have hne : (evaluationItems c).isEmpty = false := by
    simp [evaluationItems, h]
  have hsec : evaluationSection c =
      [J.obj ([("type", J.str "Container"), ("items", J.arr (evaluationItems c)),
        ("bleed", J.bool true)] ++ evaluationStyleFields c)] := by
    unfold evaluationSection
    rw [hne]
    rfl
  have hstyle : evaluationStyle c = List.lookup "style" (evaluationStyleFields c) := by
    rw [evaluationStyle, hsec]
    rfl
  by_cases h4 : 4 ≤ starCount c.lead_rating
  · have hs : evaluationStyleFields c = [("style", J.str "warning")] := by
      rw [evaluationStyleFields, if_pos ⟨h, h4⟩]
    rw [hstyle, hs]
    exact iff_of_true rfl h4
  · have hs : evaluationStyleFields c = [] := by
      rw [evaluationStyleFields, if_neg (fun hc => h4 hc.2)]
    rw [hstyle, hs]
    exact iff_of_false (fun hx => Option.noConfusion hx) h4

theorem claim4_witness :
    (¬ wCard4.lead_rating = "") ∧
    (evaluationStyle wCard4 = Option.some (J.str "warning") ↔
      4 ≤ starCount wCard4.lead_rating) :=
  ⟨by decide, claim4_warning_iff_four_stars wCard4 (by decide)⟩

/-- Claim C5 counterexample: a 2xx response whose status is not 200
(here 201, even with the expected body "1") is classified as a Failure
that is returned immediately, not as Success. -/
theorem claim5_counterexample :
    (stepOutcome (attemptStep (AttemptResult.response 201 "1"))).status = "Failure" ∧
    ¬ (stepOutcome (attemptStep (AttemptResult.response 201 "1"))).status = "Success" ∧
    sendWithRetry (fun _ => AttemptResult.response 201 "1") 3 =
      ({ status := "Failure",
         detail := "Sending failed with status: 201, Response: 1" }, 1) := by
  refine ⟨rfl, ?_, rfl⟩
  decide

/-- Claim C5 as amended: among non-error statuses, only status 200 is
classified Success (plain for body "1", annotated otherwise); any other
2xx status yields an immediate Failure outcome naming the status and the
response body. -/
theorem claim5_success_only_for_200 (status : Nat) (body : String)
    (h1 : 200 ≤ status) (h2 : status < 300) :
    (status = 200 → body = "1" →
      attemptStep (AttemptResult.response status body) =
        StepResult.done
          { status := "Success",
            detail := "Notification sent successfully." }) ∧
    (status = 200 → ¬ body = "1" →
      attemptStep (AttemptResult.response status body) =
        StepResult.done
          { status := "Success",
            detail := "Notification sent, but response was not \x271\x27 (Status: 200)." }) ∧
    (¬ status = 200 →
      attemptStep (AttemptResult.response status body) =
        StepResult.done
          { status := "Failure",
            detail := "Sending failed with status: " ++ toString status ++
              ", Response: " ++ pyTake 200 body }) := by
  refine ⟨?_, ?_, ?_⟩
  · rintro rfl rfl
    rfl
  · rintro rfl hb
    simp only [attemptStep]
    rw [if_neg (show ¬ (True ∧ body = "1") from fun hc => hb hc.2), if_pos trivial,
      if_neg (by omega : ¬ (400 ≤ 200))]
    rfl
  · intro hne
    simp only [attemptStep]
    rw [if_neg (by omega : ¬ (400 ≤ status)),
      if_neg (show ¬ (status = 200 ∧ body = "1") from fun hc => hne hc.1),
      if_neg hne]

theorem claim5_witness :
    200 ≤ 204 ∧ 204 < 300 ∧
    attemptStep (AttemptResult.response 204 "1") =
      StepResult.done
        { status := "Failure",
          detail := "Sending failed with status: 204, Response: 1" } :=
  ⟨by decide, by decide,
    (claim5_success_only_for_200 204 "1" (by decide) (by decide)).2.2 (by decide)⟩

/-- Claim C6: against an endpoint that answers HTTP 500 on every attempt,
delivery with the configured default of 3 max attempts makes exactly 3
attempts and returns a Failure whose detail carries the underlying HTTP
error text; the model is a total function, so no exception escapes. -/
theorem claim6_three_attempts_then_failure (bodyFn : Nat → String) :
    sendWithRetry (fun i => AttemptResult.response 500 (bodyFn i))
        ({} : TeamsConfig).max_retries =
      ({ status := "Failure",
         detail := "Request failed after multiple retries: " ++ httpErrorMsg 500 }, 3) := by
  have hstep : ∀ i, attemptStep (AttemptResult.response 500 (bodyFn i)) =
      StepResult.retryable
        { status := "Failure",
          detail := "Request failed after multiple retries: " ++ httpErrorMsg 500 } := by
    intro i
    simp only [attemptStep]
    rw [if_pos (by omega : (400 : Nat) ≤ 500)]
  show sendWithRetryGo _ 0 3 = _
  rw [show (3 : Nat) = 2 + 1 from rfl, sendWithRetryGo, hstep 0]
  rw [show (2 : Nat) = 1 + 1 from rfl]
  simp only [sendWithRetryGo, hstep 1, hstep 2]
  rfl

/-- Claim C7 counterexample: with page-view "1234" and website
"https://x.com" both present, the rendered page-view row text is the value
followed by a parenthesized self-link of the website; it is not a
hyperlink wrapping the page-view text. -/
theorem claim7_counterexample :
    pvRowText xCard7 = Option.some (J.str "1234 ([https://x.com](https://x.com))") ∧
    ¬ pvRowText xCard7 = Option.some (J.str "[1234](https://x.com)") := by
  refine ⟨rfl, ?_⟩
  intro hx
  rw [show pvRowText xCard7 =
    Option.some (J.str "1234 ([https://x.com](https://x.com))") from rfl] at hx
  injection hx with h1
  injection h1 with h2
  exact absurd h2 (by decide)

/-- Claim C7 as amended: with a non-empty page-view value, the evaluation
row renders the plain value when the website is absent; when the website
is also present it renders the value followed by a parenthesized markdown
link whose display text and destination are both the website URL (the
link does not wrap the page-view text). -/
theorem claim7_pv_row_rendering (c : CardData) (h : ¬ c.last_month_pv = "") :
    (c.company_website = "" → pvRowText c = Option.some (J.str c.last_month_pv)) ∧
    (¬ c.company_website = "" → pvRowText c =
      Option.some (J.str (c.last_month_pv ++ " ([" ++ c.company_website ++ "](" ++
        c.company_website ++ "))"))) := by
  constructor
  · intro hw
    unfold pvRowText evaluationItems
    rw [if_neg (show ¬ (¬ c.last_month_pv = "" ∧ ¬ c.company_website = "") from
      fun hc => hc.2 hw)]
    rw [if_pos h]
    by_cases hr : c.lead_rating = ""
    · rw [if_neg (not_not_intro hr)]
      rfl
    · rw [if_pos hr]
      rfl
  · intro hw
    unfold pvRowText evaluationItems
    rw [if_pos (show ¬ c.last_month_pv = "" ∧ ¬ c.company_website = "" from ⟨h, hw⟩)]
    by_cases hr : c.lead_rating = ""
    · rw [if_neg (not_not_intro hr)]
      rfl
    · rw [if_pos hr]
      rfl

theorem claim7_witness :
    (¬ wCard7.last_month_pv = "") ∧
    ((wCard7.company_website = "" →
        pvRowText wCard7 = Option.some (J.str wCard7.last_month_pv)) ∧
      (¬ wCard7.company_website = "" → pvRowText wCard7 =
        Option.some (J.str (wCard7.last_month_pv ++ " ([" ++ wCard7.company_website ++
          "](" ++ wCard7.company_website ++ "))")))) :=
  ⟨by decide, claim7_pv_row_rendering wCard7 (by decide)⟩

/-- Claim C8 counterexample: the empty list is a value whose default
string representation is "[]", yet the validator maps it to the empty
string (the falsy-non-numeric branch at lines 46-47), so "any other value
maps to its default string representation" fails. -/
theorem claim8_counterexample :
    validate_and_convert_to_string (PyValue.list []) "UserTags" = Except.ok "" ∧
    pyStrE (PyValue.list []) = Except.ok "[]" ∧
    ¬ ("" : String) = "[]" :=
  ⟨rfl, rfl, by decide⟩

/-- Claim C8 as amended: the validator maps `None` to the empty string,
booleans to their word form, numbers to their decimal form, any other
falsy value (empty string/containers) to the empty string, and any other
truthy value via its default string representation; a `str` failure
becomes an error naming the offending field. -/
theorem claim8_stringify_characterization (v : PyValue) (f : String) :
    validate_and_convert_to_string v f = specStringify v f := by
  cases v with
  | none => rfl
  | bool b => rfl
  | int n => rfl
  | str s =>
      by_cases hs : s = ""
      · subst hs
        rfl
      · simp [validate_and_convert_to_string, specStringify, isNumBool, pyTruthy, pyStrE, hs]
  | list xs =>
      cases xs with
      | nil => rfl
      | cons a as => rfl
  | obj r e =>
      cases e with
      | ok s => rfl
      | error msg => rfl

/-- Claim C9: after validation and before composition, every space
character is removed from exactly the three URL fields (order of the
remaining characters kept), and each of the other 27 fields passes on
unchanged. -/
theorem claim9_url_cleanup_exact (d : ForwardData) :
    (cleanupURLs d).Image_URL_companyLogo = pyRemoveSpaces d.Image_URL_companyLogo ∧
    (cleanupURLs d).refinedURL = pyRemoveSpaces d.refinedURL ∧
    (cleanupURLs d).Image_URL_userPhoto = pyRemoveSpaces d.Image_URL_userPhoto ∧
    (∀ ch ∈ (cleanupURLs d).Image_URL_companyLogo.data, ¬ ch = ' ') ∧
    (∀ ch ∈ (cleanupURLs d).refinedURL.data, ¬ ch = ' ') ∧
    (∀ ch ∈ (cleanupURLs d).Image_URL_userPhoto.data, ¬ ch = ' ') ∧
    (cleanupURLs d).LeadCompanyName = d.LeadCompanyName ∧
    (cleanupURLs d).CompanyInfo_Short = d.CompanyInfo_Short ∧
    (cleanupURLs d).userEmail = d.userEmail ∧
    (cleanupURLs d).userName = d.userName ∧
    (cleanupURLs d).UserInfo_Short = d.UserInfo_Short ∧
    (cleanupURLs d).UserTitle_ThisCompany = d.UserTitle_ThisCompany ∧
    (cleanupURLs d).PersonalOpinionPreference = d.PersonalOpinionPreference ∧
    (cleanupURLs d).Top5Cases_Name = d.Top5Cases_Name ∧
    (cleanupURLs d).account_phone = d.account_phone ∧
    (cleanupURLs d).LeadScoreLevel = d.LeadScoreLevel ∧
    (cleanupURLs d).ReasonforPrioritization = d.ReasonforPrioritization ∧
    (cleanupURLs d).ReasonforDeprioritization = d.ReasonforDeprioritization ∧
    (cleanupURLs d).LastMonthPV = d.LastMonthPV ∧
    (cleanupURLs d).potential_mrr = d.potential_mrr ∧
    (cleanupURLs d).technology_name = d.technology_name ∧
    (cleanupURLs d).formMessage = d.formMessage ∧
    (cleanupURLs d).UserTitle_OtherCompany = d.UserTitle_OtherCompany ∧
    (cleanupURLs d).CompanyIndustry = d.CompanyIndustry ∧
    (cleanupURLs d).employee_range = d.employee_range ∧
    (cleanupURLs d).UserTags = d.UserTags ∧
    (cleanupURLs d).CompanyTags = d.CompanyTags ∧
    (cleanupURLs d).WebPageTags = d.WebPageTags ∧
    (cleanupURLs d).WebPageInfo_Short = d.WebPageInfo_Short ∧
    (cleanupURLs d).PTECompetitorCaseStudyTags = d.PTECompetitorCaseStudyTags ∧
    (cleanupURLs d).mention_name = d.mention_name ∧
    (cleanupURLs d).mention_email = d.mention_email ∧
    (cleanupURLs d).source_url = d.source_url := by
  refine ⟨rfl, rfl, rfl, pyRemoveSpaces_no_space _, pyRemoveSpaces_no_space _,
    pyRemoveSpaces_no_space _, rfl, rfl, rfl, rfl, rfl, rfl, rfl, rfl, rfl, rfl, rfl,
    rfl, rfl, rfl, rfl, rfl, rfl, rfl, rfl, rfl, rfl, rfl, rfl, rfl, rfl, rfl, rfl⟩

/-- Claim C10: whenever the user name is non-empty, the user identity row
carries an image column whose URL is the (space-stripped) user photo URL
when that is non-empty and the fixed imgur placeholder when it is empty;
the row is part of the document body. -/
theorem claim10_user_photo_placeholder (fd : ForwardData) (h : ¬ fd.userName = "") :
    userRowImageUrl (forwardCardData fd) =
      Option.some (J.str (pyOr (pyRemoveSpaces fd.Image_URL_userPhoto)
        "https://i.imgur.com/Nho5TnJb.jpg")) ∧
    (fd.Image_URL_userPhoto = "" →
      userRowImageUrl (forwardCardData fd) =
        Option.some (J.str "https://i.imgur.com/Nho5TnJb.jpg")) ∧
    (∀ r ∈ userSection (forwardCardData fd), r ∈ buildBody (forwardCardData fd)) := by
  have hname : ¬ (forwardCardData fd).user_name = "" := h
  have h1 : userRowImageUrl (forwardCardData fd) =
      Option.some (J.str (pyOr (pyRemoveSpaces fd.Image_URL_userPhoto)
        "https://i.imgur.com/Nho5TnJb.jpg")) := by
    unfold userRowImageUrl userSection
    rw [if_pos hname]
    rfl
  refine ⟨h1, ?_, ?_⟩
  · intro h2
    rw [h1, h2]
    rfl
  · intro r hr
    unfold buildBody
    simp only [List.mem_append, List.mem_cons]
    tauto

theorem claim10_witness :
    (¬ wFd10.userName = "") ∧
    (userRowImageUrl (forwardCardData wFd10) =
        Option.some (J.str (pyOr (pyRemoveSpaces wFd10.Image_URL_userPhoto)
          "https://i.imgur.com/Nho5TnJb.jpg")) ∧
      (wFd10.Image_URL_userPhoto = "" →
        userRowImageUrl (forwardCardData wFd10) =
          Option.some (J.str "https://i.imgur.com/Nho5TnJb.jpg")) ∧
      (∀ r ∈ userSection (forwardCardData wFd10), r ∈ buildBody (forwardCardData wFd10))) :=
  ⟨by decide, claim10_user_photo_placeholder wFd10 (by decide)⟩
